import Mathlib

/-!
Verification of `src/card.py` from LiteratureAPI/Logic: a single `Card` value
type backed by the enumerations `CardTypes`, `CardSuitTypes`, `CardRankTypes`,
with validated property setters and a display method `__str__`.

The embedding follows the Python source line by line:

* each Python `Enum` becomes a Lean inductive with its `value` (and, for
  ranks, `name`) function;
* a value handed to a setter may be any Python object, so setter arguments
  are modelled by `PyVal`: `None`, an enum member of any of the three
  enumerations, or any other object (`other`);
* each property setter becomes a function `CardState → PyVal →
  CardState × Option CardError` transcribing the source's checks in order;
  the returned state is the object's state when the setter returns or
  raises (Python raises before any assignment in all three setters);
* the source raises `ValueError` everywhere; the spec classifies the
  setter/constructor errors as `InvalidAttribute` and the `__str__` error as
  `InvalidState`, and the embedding uses that classification as the error
  codes `CardError.InvalidAttribute` / `CardError.InvalidState`;
* `Card.__init__` assigns `card_type`, then `suit`, then `rank` through the
  property setters; `Card.init` chains the three setter calls the same way.
-/

namespace LiteratureCard

/-- `CardTypes` enumeration: STANDARD = "standard", JOKER = "joker",
GUARANTEE = "guarantee". -/
inductive CardTypes where
  | STANDARD
  | JOKER
  | GUARANTEE
deriving DecidableEq, Repr, Fintype

/-- The `.value` of a `CardTypes` member (the string the Python enum carries). -/
def CardTypes.value : CardTypes → String
  | .STANDARD => "standard"
  | .JOKER => "joker"
  | .GUARANTEE => "guarantee"

/-- `CardSuitTypes` enumeration: HEART, CLUB, SPADE, DIAMOND. -/
inductive CardSuitTypes where
  | HEART
  | CLUB
  | SPADE
  | DIAMOND
deriving DecidableEq, Repr, Fintype

/-- The `.value` of a `CardSuitTypes` member. -/
def CardSuitTypes.value : CardSuitTypes → String
  | .HEART => "heart"
  | .CLUB => "club"
  | .SPADE => "spade"
  | .DIAMOND => "diamond"

/-- `CardRankTypes` enumeration: ACE = 1 through KING = 13. -/
inductive CardRankTypes where
  | ACE
  | TWO
  | THREE
  | FOUR
  | FIVE
  | SIX
  | SEVEN
  | EIGHT
  | NINE
  | TEN
  | JACK
  | QUEEN
  | KING
deriving DecidableEq, Repr, Fintype

/-- The numeric `.value` of a `CardRankTypes` member (ACE = 1, ..., KING = 13). -/
def CardRankTypes.value : CardRankTypes → Nat
  | .ACE => 1
  | .TWO => 2
  | .THREE => 3
  | .FOUR => 4
  | .FIVE => 5
  | .SIX => 6
  | .SEVEN => 7
  | .EIGHT => 8
  | .NINE => 9
  | .TEN => 10
  | .JACK => 11
  | .QUEEN => 12
  | .KING => 13

/-- The Python `.name` of a `CardRankTypes` member (the member's identifier,
used by `Card.__str__`). -/
def CardRankTypes.name : CardRankTypes → String
  | .ACE => "ACE"
  | .TWO => "TWO"
  | .THREE => "THREE"
  | .FOUR => "FOUR"
  | .FIVE => "FIVE"
  | .SIX => "SIX"
  | .SEVEN => "SEVEN"
  | .EIGHT => "EIGHT"
  | .NINE => "NINE"
  | .TEN => "TEN"
  | .JACK => "JACK"
  | .QUEEN => "QUEEN"
  | .KING => "KING"

/-- A Python value handed to a setter or to `__init__`: `None`, a member of one
of the three enumerations, or any other object (summarised by its repr string).
Python `==` between an enum member and anything else is `False`, which matches
`DecidableEq` on distinct constructors. -/
inductive PyVal where
  | none
  | ctype (t : CardTypes)
  | suit (s : CardSuitTypes)
  | rank (r : CardRankTypes)
  | other (repr : String)
deriving DecidableEq, Repr

/-- The two error kinds of the design: `InvalidAttribute` for the
constructor/setter `ValueError`s and `InvalidState` for the `__str__`
`ValueError`. -/
inductive CardError where
  | InvalidAttribute
  | InvalidState
deriving DecidableEq, Repr, Fintype

/-- The observable state of a `Card` object: `_card_type`, `_suit`, `_rank`.
The setters only ever store a validated enumeration member or `None`, so the
fields are typed accordingly. -/
structure CardState where
  card_type : CardTypes
  suit : Option CardSuitTypes
  rank : Option CardRankTypes
deriving DecidableEq, Repr, Fintype

/-- `Card.ALLOWED_CARD_TYPES` (as `PyVal`s, in source order). -/
def ALLOWED_CARD_TYPES : List PyVal :=
  [.ctype .GUARANTEE, .ctype .JOKER, .ctype .STANDARD]

/-- `Card.ALLOWED_SUIT_TYPES` (as `PyVal`s, in source order). -/
def ALLOWED_SUIT_TYPES : List PyVal :=
  [.suit .CLUB, .suit .DIAMOND, .suit .HEART, .suit .SPADE]

/-- `Card.ALLOWED_RANK_TYPES` (as `PyVal`s, in source order). -/
def ALLOWED_RANK_TYPES : List PyVal :=
  [.rank .ACE, .rank .TWO, .rank .THREE, .rank .FOUR, .rank .FIVE,
   .rank .SIX, .rank .SEVEN, .rank .EIGHT, .rank .NINE, .rank .TEN,
   .rank .JACK, .rank .QUEEN, .rank .KING]

/-- The `card_type` property setter.
Source: raise `ValueError` if `val not in self.ALLOWED_CARD_TYPES`; otherwise
`self._card_type = val`, and if `val != CardTypes.STANDARD` also
`self._rank = None; self._suit = None`.
Returns the object's state after the call together with the raised error, if
any (the raise happens before any assignment). -/
def Card.setCardTypeRun (σ : CardState) (val : PyVal) :
    CardState × Option CardError :=
  if ALLOWED_CARD_TYPES.contains val then
    match val with
    | .ctype t =>
      if t ≠ CardTypes.STANDARD then
        ({ card_type := t, rank := Option.none, suit := Option.none },
          Option.none)
      else ({ σ with card_type := t }, Option.none)
    | _ => (σ, Option.some CardError.InvalidAttribute)
      -- dead branch: membership in ALLOWED_CARD_TYPES forces a .ctype value
  else (σ, Option.some CardError.InvalidAttribute)

/-- The `suit` property setter.
Source, in order: raise if `card_type == STANDARD and val is None`; raise if
`card_type != STANDARD and val is not None`; raise if
`val not in self.ALLOWED_SUIT_TYPES`; otherwise `self._suit = val`.
Note the third check also rejects `None` (it is not a member of
`ALLOWED_SUIT_TYPES`), so no call with `val = None` ever succeeds. -/
def Card.setSuitRun (σ : CardState) (val : PyVal) :
    CardState × Option CardError :=
  if σ.card_type = CardTypes.STANDARD ∧ val = PyVal.none then
    (σ, Option.some CardError.InvalidAttribute)
  else if σ.card_type ≠ CardTypes.STANDARD ∧ val ≠ PyVal.none then
    (σ, Option.some CardError.InvalidAttribute)
  else if ALLOWED_SUIT_TYPES.contains val then
    match val with
    | .suit s => ({ σ with suit := Option.some s }, Option.none)
    | _ => (σ, Option.some CardError.InvalidAttribute)
      -- dead branch: membership in ALLOWED_SUIT_TYPES forces a .suit value
  else (σ, Option.some CardError.InvalidAttribute)

/-- The `rank` property setter: same structure as the `suit` setter with
membership checked against `ALLOWED_RANK_TYPES`. -/
def Card.setRankRun (σ : CardState) (val : PyVal) :
    CardState × Option CardError :=
  if σ.card_type = CardTypes.STANDARD ∧ val = PyVal.none then
    (σ, Option.some CardError.InvalidAttribute)
  else if σ.card_type ≠ CardTypes.STANDARD ∧ val ≠ PyVal.none then
    (σ, Option.some CardError.InvalidAttribute)
  else if ALLOWED_RANK_TYPES.contains val then
    match val with
    | .rank r => ({ σ with rank := Option.some r }, Option.none)
    | _ => (σ, Option.some CardError.InvalidAttribute)
      -- dead branch: membership in ALLOWED_RANK_TYPES forces a .rank value
  else (σ, Option.some CardError.InvalidAttribute)

/-- Turn a setter run into `Except`: the object only survives as a value when
no error was raised. -/
def toExcept : CardState × Option CardError → Except CardError CardState
  | (σ, Option.none) => Except.ok σ
  | (_, Option.some e) => Except.error e

/-- `Card.__init__(self, suit = None, rank = None, card_type =
CardTypes.STANDARD)`: assigns `self.card_type = card_type`, then
`self.suit = suit`, then `self.rank = rank`, each through the property setter;
the first raise aborts construction.
Before `__init__` runs, `_card_type`, `_suit` and `_rank` are unset and the
source never reads them before assigning them, so the placeholder start state
used here is never observable in a successful result. -/
def Card.init (suit rank card_type : PyVal) : Except CardError CardState := do
  let σ0 : CardState :=
    { card_type := CardTypes.STANDARD, suit := Option.none,
      rank := Option.none }
  let σ1 ← toExcept (Card.setCardTypeRun σ0 card_type)
  let σ2 ← toExcept (Card.setSuitRun σ1 suit)
  toExcept (Card.setRankRun σ2 rank)

/-- `Card.__str__`: for a STANDARD card, raise `ValueError` (classified
`InvalidState`) when `rank` or `suit` is `None`, else return
`f"{rank.name} of {suit.value}"`; for a non-standard card return
`f"{card_type.value}"`. -/
def Card.toDisplayString (σ : CardState) : Except CardError String :=
  if σ.card_type = CardTypes.STANDARD then
    match σ.rank, σ.suit with
    | Option.some r, Option.some s =>
      Except.ok (r.name ++ " of " ++ s.value)
    | _, _ => Except.error CardError.InvalidState
  else Except.ok σ.card_type.value

/-- A single public mutation on a `Card`: assigning one of the three
properties. -/
inductive Op where
  | setCT (v : PyVal)
  | setSuit (v : PyVal)
  | setRank (v : PyVal)

/-- Run one property assignment on a card state. -/
def runOp (σ : CardState) : Op → CardState × Option CardError
  | .setCT v => Card.setCardTypeRun σ v
  | .setSuit v => Card.setSuitRun σ v
  | .setRank v => Card.setRankRun σ v

/-- The card states reachable through the public API: a successful
construction followed by any sequence of successful setter calls. -/
inductive Reachable : CardState → Prop where
  | constructed (s r t : PyVal) (σ : CardState)
      (h : Card.init s r t = Except.ok σ) : Reachable σ
  | step (σ σ' : CardState) (op : Op) (h : Reachable σ)
      (h2 : runOp σ op = (σ', Option.none)) : Reachable σ'

/-! ### Helper facts about the membership checks -/

/-- `val in ALLOWED_CARD_TYPES` holds exactly for the three `CardTypes`
members. -/
lemma contains_ALLOWED_CARD_TYPES (v : PyVal) :
    ALLOWED_CARD_TYPES.contains v = true ↔ ∃ t, v = PyVal.ctype t := by
  cases v with
  | ctype t => cases t <;> decide
  | suit s => cases s <;> decide
  | rank r => cases r <;> decide
  | none => decide
  | other str =>
    constructor
    · intro h
      exact absurd h (by simp [ALLOWED_CARD_TYPES, List.contains])
    · rintro ⟨t, ht⟩
      exact absurd ht (by simp)

/-- `val in ALLOWED_SUIT_TYPES` holds exactly for the four `CardSuitTypes`
members. -/
lemma contains_ALLOWED_SUIT_TYPES (v : PyVal) :
    ALLOWED_SUIT_TYPES.contains v = true ↔ ∃ s, v = PyVal.suit s := by
  cases v with
  | ctype t => cases t <;> decide
  | suit s => cases s <;> decide
  | rank r => cases r <;> decide
  | none => decide
  | other str =>
    constructor
    · intro h
      exact absurd h (by simp [ALLOWED_SUIT_TYPES, List.contains])
    · rintro ⟨s, hs⟩
      exact absurd hs (by simp)

/-- `val in ALLOWED_RANK_TYPES` holds exactly for the thirteen `CardRankTypes`
members. -/
lemma contains_ALLOWED_RANK_TYPES (v : PyVal) :
    ALLOWED_RANK_TYPES.contains v = true ↔ ∃ r, v = PyVal.rank r := by
  cases v with
  | ctype t => cases t <;> decide
  | suit s => cases s <;> decide
  | rank r => cases r <;> decide
  | none => decide
  | other str =>
    constructor
    · intro h
      exact absurd h (by simp [ALLOWED_RANK_TYPES, List.contains])
    · rintro ⟨r, hr⟩
      exact absurd hr (by simp)


/-- Resolved form of the `card_type` setter: the membership check passes
exactly for `CardTypes` members. -/
lemma setCardTypeRun_eq (σ : CardState) (v : PyVal) :
    Card.setCardTypeRun σ v =
      match v with
      | PyVal.ctype t =>
        if t ≠ CardTypes.STANDARD then
          ({ card_type := t, suit := Option.none, rank := Option.none },
            Option.none)
        else ({ σ with card_type := t }, Option.none)
      | _ => (σ, Option.some CardError.InvalidAttribute) := by
  cases v <;>
    first
      | rfl
      | (rename_i x; cases x <;> rfl)

/-- Resolved form of the `suit` setter: it succeeds exactly on a STANDARD card
with a `CardSuitTypes` member, and fails otherwise. -/
lemma setSuitRun_eq (σ : CardState) (v : PyVal) :
    Card.setSuitRun σ v =
      if σ.card_type = CardTypes.STANDARD then
        match v with
        | PyVal.suit s => ({ σ with suit := Option.some s }, Option.none)
        | _ => (σ, Option.some CardError.InvalidAttribute)
      else (σ, Option.some CardError.InvalidAttribute) := by
  rcases σ with ⟨ct, su, rk⟩
  cases ct <;> cases v <;>
    first
      | rfl
      | (rename_i x; cases x <;> rfl)

/-- Resolved form of the `rank` setter: it succeeds exactly on a STANDARD card
with a `CardRankTypes` member, and fails otherwise. -/
lemma setRankRun_eq (σ : CardState) (v : PyVal) :
    Card.setRankRun σ v =
      if σ.card_type = CardTypes.STANDARD then
        match v with
        | PyVal.rank r => ({ σ with rank := Option.some r }, Option.none)
        | _ => (σ, Option.some CardError.InvalidAttribute)
      else (σ, Option.some CardError.InvalidAttribute) := by
  rcases σ with ⟨ct, su, rk⟩
  cases ct <;> cases v <;>
    first
      | rfl
      | (rename_i x; cases x <;> rfl)


/-- Characterisation of a successful construction: `Card.__init__` succeeds
exactly when called as `Card(suit, rank, CardTypes.STANDARD)` with a
`CardSuitTypes` member and a `CardRankTypes` member, and then produces the
fully populated standard card.  (A non-STANDARD `card_type` always fails:
the suit setter rejects `None` through its membership check.) -/
lemma init_ok_iff (sv rv tv : PyVal) (σ : CardState) :
    Card.init sv rv tv = Except.ok σ ↔
      ∃ s0 r0, sv = PyVal.suit s0 ∧ rv = PyVal.rank r0 ∧
        tv = PyVal.ctype CardTypes.STANDARD ∧
        σ = { card_type := CardTypes.STANDARD, suit := Option.some s0,
              rank := Option.some r0 } := by
  cases tv with
  | ctype t =>
    cases t with
    | STANDARD =>
      cases sv <;> cases rv <;>
        simp [Card.init, setCardTypeRun_eq, setSuitRun_eq, setRankRun_eq,
          toExcept, Bind.bind, Except.bind, eq_comm]
    | JOKER =>
      cases sv <;>
        simp [Card.init, setCardTypeRun_eq, setSuitRun_eq, setRankRun_eq,
          toExcept, Bind.bind, Except.bind]
    | GUARANTEE =>
      cases sv <;>
        simp [Card.init, setCardTypeRun_eq, setSuitRun_eq, setRankRun_eq,
          toExcept, Bind.bind, Except.bind]
  | none =>
    simp [Card.init, setCardTypeRun_eq, toExcept, Bind.bind, Except.bind]
  | suit s =>
    simp [Card.init, setCardTypeRun_eq, toExcept, Bind.bind, Except.bind]
  | rank r =>
    simp [Card.init, setCardTypeRun_eq, toExcept, Bind.bind, Except.bind]
  | other str =>
    simp [Card.init, setCardTypeRun_eq, toExcept, Bind.bind, Except.bind]

/-! ### Concrete states and reachability facts -/

/-- The ace of hearts, as produced by `Card(CardSuitTypes.HEART,
CardRankTypes.ACE)`. -/
def stdHeartAce : CardState :=
  { card_type := CardTypes.STANDARD, suit := Option.some CardSuitTypes.HEART,
    rank := Option.some CardRankTypes.ACE }

/-- The joker state: JOKER with no suit and no rank. -/
def jokerState : CardState :=
  { card_type := CardTypes.JOKER, suit := Option.none, rank := Option.none }

/-- A blank standard card: STANDARD with no suit and no rank. -/
def blankStandard : CardState :=
  { card_type := CardTypes.STANDARD, suit := Option.none, rank := Option.none }

/-- The ace of hearts is constructible. -/
lemma stdHeartAce_reachable : Reachable stdHeartAce :=
  Reachable.constructed (PyVal.suit CardSuitTypes.HEART)
    (PyVal.rank CardRankTypes.ACE) (PyVal.ctype CardTypes.STANDARD)
    stdHeartAce rfl

/-- The joker state is reachable: construct the ace of hearts, then assign
`card_type = CardTypes.JOKER` (which clears suit and rank). -/
lemma jokerState_reachable : Reachable jokerState :=
  Reachable.step stdHeartAce jokerState (Op.setCT (PyVal.ctype CardTypes.JOKER))
    stdHeartAce_reachable rfl

/-- The blank standard card is reachable: from the joker state, assign
`card_type = CardTypes.STANDARD` (which keeps the cleared suit and rank). -/
lemma blankStandard_reachable : Reachable blankStandard :=
  Reachable.step jokerState blankStandard
    (Op.setCT (PyVal.ctype CardTypes.STANDARD)) jokerState_reachable rfl

/-! ### Error analysis helpers -/

/-- The second component of a `card_type` setter run is either no error or
`InvalidAttribute`. -/
lemma setCardTypeRun_snd (σ : CardState) (v : PyVal) :
    (Card.setCardTypeRun σ v).2 = Option.none ∨
      (Card.setCardTypeRun σ v).2 = Option.some CardError.InvalidAttribute := by
  rw [setCardTypeRun_eq]
  cases v <;> simp
  split <;> simp

/-- The second component of a `suit` setter run is either no error or
`InvalidAttribute`. -/
lemma setSuitRun_snd (σ : CardState) (v : PyVal) :
    (Card.setSuitRun σ v).2 = Option.none ∨
      (Card.setSuitRun σ v).2 = Option.some CardError.InvalidAttribute := by
  rw [setSuitRun_eq]
  split
  · cases v <;> simp
  · simp

/-- The second component of a `rank` setter run is either no error or
`InvalidAttribute`. -/
lemma setRankRun_snd (σ : CardState) (v : PyVal) :
    (Card.setRankRun σ v).2 = Option.none ∨
      (Card.setRankRun σ v).2 = Option.some CardError.InvalidAttribute := by
  rw [setRankRun_eq]
  split
  · cases v <;> simp
  · simp

/-- A failing `toExcept` exposes the recorded error. -/
lemma toExcept_error (p : CardState × Option CardError) (e : CardError) :
    toExcept p = Except.error e → p.2 = Option.some e := by
  rcases p with ⟨σ, o⟩
  cases o <;> simp [toExcept]

/-- Error analysis of `Except` bind. -/
lemma except_bind_error {α β : Type} (x : Except CardError α)
    (f : α → Except CardError β) (e : CardError) :
    x >>= f = Except.error e →
      x = Except.error e ∨ ∃ a, x = Except.ok a ∧ f a = Except.error e := by
  cases x with
  | ok a => intro h; exact Or.inr ⟨a, rfl, h⟩
  | error e0 =>
    intro h
    simp [Bind.bind, Except.bind] at h
    simp [h]

/-- A failing construction always reports `InvalidAttribute`: all three
property setters raise only that error kind. -/
lemma init_error_attr (sv rv tv : PyVal) (e : CardError) :
    Card.init sv rv tv = Except.error e → e = CardError.InvalidAttribute := by
  intro h
  unfold Card.init at h
  rcases except_bind_error _ _ _ h with h1 | ⟨σ1, _, h1⟩
  · have := toExcept_error _ _ h1
    rcases setCardTypeRun_snd
        { card_type := CardTypes.STANDARD, suit := Option.none,
          rank := Option.none } tv with h2 | h2 <;>
      simp [h2] at this
    exact this.symm
  · rcases except_bind_error _ _ _ h1 with h3 | ⟨σ2, _, h3⟩
    · have := toExcept_error _ _ h3
      rcases setSuitRun_snd σ1 sv with h2 | h2 <;> simp [h2] at this
      exact this.symm
    · have := toExcept_error _ _ h3
      rcases setRankRun_snd σ2 rv with h2 | h2 <;> simp [h2] at this
      exact this.symm

/-- A construction that cannot succeed fails with `InvalidAttribute`. -/
lemma init_not_ok (sv rv tv : PyVal)
    (h : ¬ ∃ σ, Card.init sv rv tv = Except.ok σ) :
    Card.init sv rv tv = Except.error CardError.InvalidAttribute := by
  cases hinit : Card.init sv rv tv with
  | ok σ => exact absurd ⟨σ, hinit⟩ h
  | error e => rw [init_error_attr sv rv tv e hinit]

/-! ### Claim theorems -/

/-- C1: the claim says `Construct(JOKER)` and `Construct(GUARANTEE)` with null
suit and rank succeed and display as "joker" / "guarantee".  The code disagrees:
`Card.__init__` assigns `self.suit = None`, and the suit setter's membership
check `val not in ALLOWED_SUIT_TYPES` rejects `None` even for a non-standard
card, so both constructions raise.  This theorem evaluates the code at the
failing inputs and shows the failure comes from the suit setter; the display
method itself would render the intended strings on the (unconstructible)
states. -/
theorem C1_joker_guarantee_construct_raises :
    Card.init PyVal.none PyVal.none (PyVal.ctype CardTypes.JOKER) =
      Except.error CardError.InvalidAttribute ∧
    Card.init PyVal.none PyVal.none (PyVal.ctype CardTypes.GUARANTEE) =
      Except.error CardError.InvalidAttribute ∧
    (Card.setSuitRun jokerState PyVal.none).2 =
      Option.some CardError.InvalidAttribute ∧
    Card.toDisplayString jokerState = Except.ok "joker" ∧
    Card.toDisplayString
        { card_type := CardTypes.GUARANTEE, suit := Option.none,
          rank := Option.none } = Except.ok "guarantee" :=
  ⟨rfl, rfl, rfl, rfl, rfl⟩

/-- C4: for every valid (suit, rank) pair, `Card(suit, rank,
CardTypes.STANDARD)` succeeds and `__str__` returns
`"<RANK_NAME> of <suit_value>"`; in particular "ACE of heart" and
"KING of spade". -/
theorem C4_standard_display :
    (∀ (s : CardSuitTypes) (r : CardRankTypes),
      Card.init (PyVal.suit s) (PyVal.rank r) (PyVal.ctype CardTypes.STANDARD) =
        Except.ok { card_type := CardTypes.STANDARD, suit := Option.some s,
                    rank := Option.some r } ∧
      Card.toDisplayString
          { card_type := CardTypes.STANDARD, suit := Option.some s,
            rank := Option.some r } =
        Except.ok (r.name ++ " of " ++ s.value)) ∧
    Card.toDisplayString stdHeartAce = Except.ok "ACE of heart" ∧
    Card.toDisplayString
        { card_type := CardTypes.STANDARD,
          suit := Option.some CardSuitTypes.SPADE,
          rank := Option.some CardRankTypes.KING } =
      Except.ok "KING of spade" := by
  refine ⟨fun s r => ⟨?_, rfl⟩, rfl, rfl⟩
  exact (init_ok_iff _ _ _ _).2 ⟨s, r, rfl, rfl, rfl, rfl⟩

/-- C5: the suit setter fails with `InvalidAttribute` exactly when (the card is
STANDARD and the value is null), or (the card is not STANDARD and the value is
non-null), or the value is not a `CardSuitTypes` member; the rank setter
likewise with `CardRankTypes` membership. -/
theorem C5_setter_failure_condition :
    (∀ (σ : CardState) (v : PyVal),
      (Card.setSuitRun σ v).2 = Option.some CardError.InvalidAttribute ↔
        ((σ.card_type = CardTypes.STANDARD ∧ v = PyVal.none) ∨
         (σ.card_type ≠ CardTypes.STANDARD ∧ v ≠ PyVal.none) ∨
         ¬ ∃ s, v = PyVal.suit s)) ∧
    (∀ (σ : CardState) (v : PyVal),
      (Card.setRankRun σ v).2 = Option.some CardError.InvalidAttribute ↔
        ((σ.card_type = CardTypes.STANDARD ∧ v = PyVal.none) ∨
         (σ.card_type ≠ CardTypes.STANDARD ∧ v ≠ PyVal.none) ∨
         ¬ ∃ r, v = PyVal.rank r)) := by
  constructor <;> intro σ v
  · rw [setSuitRun_eq]
    by_cases hct : σ.card_type = CardTypes.STANDARD <;>
      cases v <;> simp_all
  · rw [setRankRun_eq]
    by_cases hct : σ.card_type = CardTypes.STANDARD <;>
      cases v <;> simp_all

/-- C6: assigning a recognized non-STANDARD card type always succeeds, stores
the new type, and clears both suit and rank to null. -/
theorem C6_set_nonstandard_clears :
    ∀ (σ : CardState) (t : CardTypes), t ≠ CardTypes.STANDARD →
      Card.setCardTypeRun σ (PyVal.ctype t) =
        ({ card_type := t, suit := Option.none, rank := Option.none },
          Option.none) := by
  intro σ t ht
  rw [setCardTypeRun_eq]
  simp [ht]

/-- Witness for C6: converting the ace of hearts to a joker clears suit and
rank. -/
theorem C6_set_nonstandard_clears_witness :
    Card.setCardTypeRun stdHeartAce (PyVal.ctype CardTypes.JOKER) =
      ({ card_type := CardTypes.JOKER, suit := Option.none,
         rank := Option.none }, Option.none) :=
  C6_set_nonstandard_clears stdHeartAce CardTypes.JOKER (by decide)

/-- C7: any value that is not one of the three `CardTypes` members is rejected
with `InvalidAttribute`, both at construction and when assigned to `card_type`
on an existing card. -/
theorem C7_unrecognized_card_type_rejected :
    ∀ (v : PyVal), (¬ ∃ t, v = PyVal.ctype t) →
      (∀ (sv rv : PyVal),
        Card.init sv rv v = Except.error CardError.InvalidAttribute) ∧
      (∀ (σ : CardState),
        Card.setCardTypeRun σ v = (σ, Option.some CardError.InvalidAttribute)) := by
  intro v hv
  have hset : ∀ (σ : CardState),
      Card.setCardTypeRun σ v = (σ, Option.some CardError.InvalidAttribute) := by
    intro σ
    rw [setCardTypeRun_eq]
    cases v with
    | ctype t => exact absurd ⟨t, rfl⟩ hv
    | none => rfl
    | suit s => rfl
    | rank r => rfl
    | other str => rfl
  refine ⟨fun sv rv => ?_, hset⟩
  simp [Card.init, hset, toExcept, Bind.bind, Except.bind]

/-- Witness for C7: Python `None` is not a `CardTypes` member, so
`Card(HEART, ACE, None)` raises and assigning `None` to `card_type` on a blank
standard card raises. -/
theorem C7_unrecognized_card_type_rejected_witness :
    Card.init (PyVal.suit CardSuitTypes.HEART) (PyVal.rank CardRankTypes.ACE)
        PyVal.none = Except.error CardError.InvalidAttribute ∧
    Card.setCardTypeRun blankStandard PyVal.none =
      (blankStandard, Option.some CardError.InvalidAttribute) :=
  ⟨(C7_unrecognized_card_type_rejected PyVal.none (by decide)).1
      (PyVal.suit CardSuitTypes.HEART) (PyVal.rank CardRankTypes.ACE),
   (C7_unrecognized_card_type_rejected PyVal.none (by decide)).2 blankStandard⟩

/-- C8: constructing STANDARD with a null suit or null rank fails with
`InvalidAttribute`, and constructing JOKER or GUARANTEE with a non-null suit
or non-null rank fails with `InvalidAttribute`. -/
theorem C8_construct_mismatched_fields_rejected :
    (∀ (sv rv : PyVal), sv = PyVal.none ∨ rv = PyVal.none →
      Card.init sv rv (PyVal.ctype CardTypes.STANDARD) =
        Except.error CardError.InvalidAttribute) ∧
    (∀ (t : CardTypes), t = CardTypes.JOKER ∨ t = CardTypes.GUARANTEE →
      ∀ (sv rv : PyVal), sv ≠ PyVal.none ∨ rv ≠ PyVal.none →
        Card.init sv rv (PyVal.ctype t) =
          Except.error CardError.InvalidAttribute) := by
  constructor
  · intro sv rv hor
    apply init_not_ok
    rintro ⟨σ, hok⟩
    obtain ⟨s0, r0, hs, hr, -, -⟩ := (init_ok_iff _ _ _ _).1 hok
    rcases hor with h | h <;> subst h <;> simp_all
  · intro t ht sv rv hor
    apply init_not_ok
    rintro ⟨σ, hok⟩
    obtain ⟨s0, r0, -, -, hteq, -⟩ := (init_ok_iff _ _ _ _).1 hok
    rcases ht with h | h <;> subst h <;> simp_all

/-- Witness for C8: `Card(None, ACE, STANDARD)` raises, and
`Card(HEART, None, JOKER)` raises. -/
theorem C8_construct_mismatched_fields_rejected_witness :
    Card.init PyVal.none (PyVal.rank CardRankTypes.ACE)
        (PyVal.ctype CardTypes.STANDARD) =
      Except.error CardError.InvalidAttribute ∧
    Card.init (PyVal.suit CardSuitTypes.HEART) PyVal.none
        (PyVal.ctype CardTypes.JOKER) =
      Except.error CardError.InvalidAttribute :=
  ⟨C8_construct_mismatched_fields_rejected.1 PyVal.none
      (PyVal.rank CardRankTypes.ACE) (Or.inl rfl),
   C8_construct_mismatched_fields_rejected.2 CardTypes.JOKER (Or.inl rfl)
      (PyVal.suit CardSuitTypes.HEART) PyVal.none (Or.inl (by decide))⟩

/-- C9: every setter validates before assigning, so a raising setter call
leaves all three observable fields unchanged. -/
theorem C9_setters_atomic :
    ∀ (σ : CardState) (v : PyVal) (e : CardError),
      ((Card.setCardTypeRun σ v).2 = Option.some e →
        (Card.setCardTypeRun σ v).1 = σ) ∧
      ((Card.setSuitRun σ v).2 = Option.some e →
        (Card.setSuitRun σ v).1 = σ) ∧
      ((Card.setRankRun σ v).2 = Option.some e →
        (Card.setRankRun σ v).1 = σ) := by
  intro σ v e
  refine ⟨?_, ?_, ?_⟩
  · rw [setCardTypeRun_eq]
    cases v <;> simp
    split <;> simp
  · rw [setSuitRun_eq]
    split
    · cases v <;> simp
    · simp
  · rw [setRankRun_eq]
    split
    · cases v <;> simp
    · simp

/-- Witness for C9: assigning `None` to `suit` on the ace of hearts raises and
leaves the card unchanged. -/
theorem C9_setters_atomic_witness :
    (Card.setSuitRun stdHeartAce PyVal.none).1 = stdHeartAce :=
  (C9_setters_atomic stdHeartAce PyVal.none CardError.InvalidAttribute).2.1 rfl

/-- C10: frame conditions.  A successful suit assignment changes only the suit
field, a successful rank assignment changes only the rank field, and a
successful `card_type = STANDARD` assignment changes only the card_type field,
keeping the current suit and rank. -/
theorem C10_setter_frame :
    ∀ (σ : CardState) (v : PyVal),
      ((Card.setSuitRun σ v).2 = Option.none →
        (Card.setSuitRun σ v).1.card_type = σ.card_type ∧
        (Card.setSuitRun σ v).1.rank = σ.rank) ∧
      ((Card.setRankRun σ v).2 = Option.none →
        (Card.setRankRun σ v).1.card_type = σ.card_type ∧
        (Card.setRankRun σ v).1.suit = σ.suit) ∧
      ((Card.setCardTypeRun σ (PyVal.ctype CardTypes.STANDARD)).2 =
          Option.none →
        (Card.setCardTypeRun σ (PyVal.ctype CardTypes.STANDARD)).1.card_type =
          CardTypes.STANDARD ∧
        (Card.setCardTypeRun σ (PyVal.ctype CardTypes.STANDARD)).1.suit =
          σ.suit ∧
        (Card.setCardTypeRun σ (PyVal.ctype CardTypes.STANDARD)).1.rank =
          σ.rank) := by
  intro σ v
  refine ⟨?_, ?_, ?_⟩
  · rw [setSuitRun_eq]
    split
    · cases v <;> simp
    · simp
  · rw [setRankRun_eq]
    split
    · cases v <;> simp
    · simp
  · rw [setCardTypeRun_eq]
    simp

/-- Witness for C10: assigning CLUB to the ace of hearts keeps its card type
and rank. -/
theorem C10_setter_frame_witness :
    (Card.setSuitRun stdHeartAce (PyVal.suit CardSuitTypes.CLUB)).1.card_type =
      stdHeartAce.card_type ∧
    (Card.setSuitRun stdHeartAce (PyVal.suit CardSuitTypes.CLUB)).1.rank =
      stdHeartAce.rank :=
  (C10_setter_frame stdHeartAce (PyVal.suit CardSuitTypes.CLUB)).1 rfl

/-- Counterexample for C2: the blank standard card is reachable through
successful public calls (construct the ace of hearts, set `card_type = JOKER`,
set `card_type = STANDARD`), and on it `card_type == STANDARD` holds while both
suit and rank are null, refuting the claimed equivalence. -/
theorem C2_invariant_counterexample :
    Reachable blankStandard ∧
      blankStandard.card_type = CardTypes.STANDARD ∧
      blankStandard.suit = Option.none ∧
      blankStandard.rank = Option.none ∧
      ¬ (blankStandard.card_type = CardTypes.STANDARD ↔
          blankStandard.suit ≠ Option.none ∧
          blankStandard.rank ≠ Option.none) :=
  ⟨blankStandard_reachable, rfl, rfl, rfl, by decide⟩

/-- C2 (amended): on every reachable card, a non-STANDARD card type implies
both suit and rank are null — equivalently a non-null suit or rank implies the
card is STANDARD — but a STANDARD card may itself have null suit and/or rank
(the blank standard card the `card_type` setter deliberately allows). -/
theorem C2_reachable_invariant_amended :
    ∀ σ : CardState, Reachable σ →
      (σ.card_type ≠ CardTypes.STANDARD →
        σ.suit = Option.none ∧ σ.rank = Option.none) ∧
      ((σ.suit ≠ Option.none ∨ σ.rank ≠ Option.none) →
        σ.card_type = CardTypes.STANDARD) := by
  have key : ∀ σ : CardState, Reachable σ →
      σ.card_type ≠ CardTypes.STANDARD →
        σ.suit = Option.none ∧ σ.rank = Option.none := by
    intro σ h
    induction h with
    | constructed s r t σ h =>
      obtain ⟨s0, r0, -, -, -, hσ⟩ := (init_ok_iff _ _ _ _).1 h
      subst hσ
      intro hne
      exact absurd rfl hne
    | step σ σ' op h h2 ih =>
      cases op with
      | setCT v =>
        rw [show runOp σ (Op.setCT v) = Card.setCardTypeRun σ v from rfl,
          setCardTypeRun_eq] at h2
        cases v with
        | ctype t =>
          by_cases ht : t = CardTypes.STANDARD
          · subst ht
            simp at h2
            subst h2
            intro hne
            exact absurd rfl hne
          · simp [ht] at h2
            subst h2
            exact fun _ => ⟨rfl, rfl⟩
        | none => simp at h2
        | suit s => simp at h2
        | rank r => simp at h2
        | other str => simp at h2
      | setSuit v =>
        rw [show runOp σ (Op.setSuit v) = Card.setSuitRun σ v from rfl,
          setSuitRun_eq] at h2
        by_cases hct : σ.card_type = CardTypes.STANDARD
        · rw [if_pos hct] at h2
          cases v with
          | suit s =>
            simp at h2
            subst h2
            intro hne
            exact absurd hct hne
          | none => simp at h2
          | ctype t => simp at h2
          | rank r => simp at h2
          | other str => simp at h2
        · rw [if_neg hct] at h2
          simp at h2
      | setRank v =>
        rw [show runOp σ (Op.setRank v) = Card.setRankRun σ v from rfl,
          setRankRun_eq] at h2
        by_cases hct : σ.card_type = CardTypes.STANDARD
        · rw [if_pos hct] at h2
          cases v with
          | rank r =>
            simp at h2
            subst h2
            intro hne
            exact absurd hct hne
          | none => simp at h2
          | ctype t => simp at h2
          | suit s => simp at h2
          | other str => simp at h2
        · rw [if_neg hct] at h2
          simp at h2
  intro σ h
  refine ⟨key σ h, fun hor => ?_⟩
  by_contra hne
  obtain ⟨hs, hr⟩ := key σ h hne
  rcases hor with h1 | h1
  · exact h1 hs
  · exact h1 hr

/-- Witness for the amended C2: the reachable joker state has null suit and
rank. -/
theorem C2_reachable_invariant_amended_witness :
    jokerState.suit = Option.none ∧ jokerState.rank = Option.none :=
  (C2_reachable_invariant_amended jokerState jokerState_reachable).1
    (by decide)

/-- Counterexample for C3: the blank standard card — on which `__str__` raises
the `InvalidState` error — is reachable by successful public calls alone, so
the state is not "reachable only if invariants were bypassed". -/
theorem C3_invalid_state_reachable_counterexample :
    Reachable blankStandard ∧
      Card.toDisplayString blankStandard =
        Except.error CardError.InvalidState :=
  ⟨blankStandard_reachable, rfl⟩

/-- C3 (amended): `InvalidState` is raised only by `__str__`, and only on a
STANDARD card whose suit or rank is null — the setters and the constructor
never raise it — but such a card IS reachable through successful public calls
(see the counterexample). -/
theorem C3_invalid_state_only_from_display :
    (∀ (σ : CardState) (e : CardError),
      Card.toDisplayString σ = Except.error e →
        e = CardError.InvalidState ∧ σ.card_type = CardTypes.STANDARD ∧
          (σ.suit = Option.none ∨ σ.rank = Option.none)) ∧
    (∀ (σ : CardState) (v : PyVal),
      (Card.setCardTypeRun σ v).2 ≠ Option.some CardError.InvalidState ∧
      (Card.setSuitRun σ v).2 ≠ Option.some CardError.InvalidState ∧
      (Card.setRankRun σ v).2 ≠ Option.some CardError.InvalidState) ∧
    (∀ (sv rv tv : PyVal),
      Card.init sv rv tv ≠ Except.error CardError.InvalidState) := by
  refine ⟨?_, ?_, ?_⟩
  · intro σ e h
    rcases σ with ⟨ct, su, rk⟩
    cases ct <;> cases su <;> cases rk <;>
      simp_all [Card.toDisplayString]
  · intro σ v
    refine ⟨?_, ?_, ?_⟩
    · rcases setCardTypeRun_snd σ v with h | h <;> simp [h]
    · rcases setSuitRun_snd σ v with h | h <;> simp [h]
    · rcases setRankRun_snd σ v with h | h <;> simp [h]
  · intro sv rv tv h
    exact absurd (init_error_attr sv rv tv _ h) (by decide)

/-- Witness for the amended C3: applying the characterisation to the blank
standard card, on which `__str__` raises `InvalidState`. -/
theorem C3_invalid_state_only_from_display_witness :
    CardError.InvalidState = CardError.InvalidState ∧
      blankStandard.card_type = CardTypes.STANDARD ∧
      (blankStandard.suit = Option.none ∨
        blankStandard.rank = Option.none) :=
  C3_invalid_state_only_from_display.1 blankStandard CardError.InvalidState rfl

end LiteratureCard
